import Mathlib

/-!
Verification of the headless (simulated) WebXR device against its
natural-language specification.

The development shallowly embeds the two source files of the repository:

- src/webxr-api/view.rs : the coordinate-space model (space tags, rigid
  transforms, views);
- src/webxr/headless/mod.rs : the simulated device (shared device state,
  control-loop command handling, input/select state machine, hit-test
  traversal, discovery, and the per-session device actor).

Scalars are modelled as exact rationals in place of f32: every claim treated
here is about control flow and data plumbing, not floating-point rounding.
Types of the webxr-api crate that the headless device uses but whose source
is not part of this snapshot (event buffer, hit-test list, mock/init types,
triangle intersection) are modelled from the specification; each such
definition carries a doc comment saying so.

set_option note: all definitions are plain computable functions so that every
theorem can be exercised on concrete inputs.
-/

set_option autoImplicit false

namespace WebXR

/-! ### Vectors and quaternions (the numeric core of euclid's typed algebra) -/

/-- A 3-vector with rational coordinates, standing in for euclid's
Vector3D of f32 values. -/
structure Vec3 where
  x : ℚ
  y : ℚ
  z : ℚ
deriving DecidableEq, Repr

def Vec3.zero : Vec3 := ⟨0, 0, 0⟩

def Vec3.add (a b : Vec3) : Vec3 := ⟨a.x + b.x, a.y + b.y, a.z + b.z⟩

def Vec3.sub (a b : Vec3) : Vec3 := ⟨a.x - b.x, a.y - b.y, a.z - b.z⟩

def Vec3.neg (a : Vec3) : Vec3 := ⟨-a.x, -a.y, -a.z⟩

def Vec3.smul (c : ℚ) (a : Vec3) : Vec3 := ⟨c * a.x, c * a.y, c * a.z⟩

def Vec3.dot (a b : Vec3) : ℚ := a.x * b.x + a.y * b.y + a.z * b.z

def Vec3.cross (a b : Vec3) : Vec3 :=
  ⟨a.y * b.z - a.z * b.y, a.z * b.x - a.x * b.z, a.x * b.y - a.y * b.x⟩

/-- A quaternion with rational coordinates, standing in for the rotation
part of euclid's RigidTransform3D. -/
structure Quat where
  x : ℚ
  y : ℚ
  z : ℚ
  w : ℚ
deriving DecidableEq, Repr

/-- The identity rotation. -/
def Quat.one : Quat := ⟨0, 0, 0, 1⟩

/-- Hamilton product. -/
def Quat.mul (a b : Quat) : Quat :=
  ⟨a.w * b.x + a.x * b.w + a.y * b.z - a.z * b.y,
   a.w * b.y - a.x * b.z + a.y * b.w + a.z * b.x,
   a.w * b.z + a.x * b.y - a.y * b.x + a.z * b.w,
   a.w * b.w - a.x * b.x - a.y * b.y - a.z * b.z⟩

/-- Conjugate, the inverse of a unit rotation. -/
def Quat.conj (q : Quat) : Quat := ⟨-q.x, -q.y, -q.z, q.w⟩

/-- Rotate a vector by the quaternion sandwich product. -/
def Quat.rotate (q : Quat) (v : Vec3) : Vec3 :=
  let p : Quat := ⟨v.x, v.y, v.z, 0⟩
  let r := (q.mul p).mul q.conj
  ⟨r.x, r.y, r.z⟩

/-! ### Space tags (src/webxr-api/view.rs)

Uninhabited marker types identifying coordinate frames.  They carry no
runtime data; transforms are tagged with a source and a target frame. -/

/-- The coordinate space of the viewer. -/
inductive Viewer : Type

/-- The coordinate space of the floor. -/
inductive Floor : Type

/-- The coordinate space of the left eye. -/
inductive LeftEye : Type

/-- The coordinate space of the right eye. -/
inductive RightEye : Type

/-- The native 3D coordinate space of the device. -/
inductive Native : Type

/-- The normalized device coordinate space of the display. -/
inductive Display : Type

/-- The unnormalized pixel coordinate space of the display. -/
inductive ViewportSpace : Type

/-- The coordinate space of an input device. -/
inductive Input : Type

/-- The coordinate space of a secondary capture view. -/
inductive Capture : Type

/-- The space tag used for rays declared by the session client. -/
inductive ApiSpace : Type

/-- The space tag of a hit-test result pose. -/
inductive HitTestSpace : Type

/-- The anonymous unit euclid uses for untyped values. -/
inductive UnknownUnit : Type

/-! ### Typed rigid transforms and general 4x4 transforms -/

/-- Rotation plus translation, typed by source and target space
(models euclid's RigidTransform3D of f32 with two phantom units). -/
structure RigidTransform3D (Src Dst : Type) where
  rotation : Quat
  translation : Vec3

/-- The identity rigid transform. -/
def RigidTransform3D.identity {Src Dst : Type} : RigidTransform3D Src Dst :=
  ⟨Quat.one, Vec3.zero⟩

/-- Sequential composition: apply f first, then g. -/
def RigidTransform3D.compose {A B C : Type}
    (f : RigidTransform3D A B) (g : RigidTransform3D B C) : RigidTransform3D A C :=
  ⟨g.rotation.mul f.rotation, (g.rotation.rotate f.translation).add g.translation⟩

/-- Apply self first, then the other transform (euclid post_transform). -/
def RigidTransform3D.post_transform {A B C : Type}
    (f : RigidTransform3D A B) (g : RigidTransform3D B C) : RigidTransform3D A C :=
  f.compose g

/-- Apply the other transform first, then self (euclid pre_transform). -/
def RigidTransform3D.pre_transform {A B C : Type}
    (f : RigidTransform3D B C) (g : RigidTransform3D A B) : RigidTransform3D A C :=
  g.compose f

/-- Inverse of a rigid transform with a unit rotation. -/
def RigidTransform3D.inverse {A B : Type} (t : RigidTransform3D A B) : RigidTransform3D B A :=
  ⟨t.rotation.conj, (t.rotation.conj.rotate t.translation).neg⟩

/-- Re-tag the phantom spaces of a rigid transform, reusing the numbers
verbatim (euclid cast_unit). -/
def RigidTransform3D.cast_unit {A B A2 B2 : Type}
    (t : RigidTransform3D A B) : RigidTransform3D A2 B2 :=
  ⟨t.rotation, t.translation⟩

/-- A general 4x4 transform typed by source and target space
(models euclid's Transform3D of f32). -/
structure Transform3D (Src Dst : Type) where
  m11 : ℚ
  m12 : ℚ
  m13 : ℚ
  m14 : ℚ
  m21 : ℚ
  m22 : ℚ
  m23 : ℚ
  m24 : ℚ
  m31 : ℚ
  m32 : ℚ
  m33 : ℚ
  m34 : ℚ
  m41 : ℚ
  m42 : ℚ
  m43 : ℚ
  m44 : ℚ

/-- The identity 4x4 transform. -/
def Transform3D.identity {Src Dst : Type} : Transform3D Src Dst :=
  ⟨1, 0, 0, 0, 0, 1, 0, 0, 0, 0, 1, 0, 0, 0, 0, 1⟩

/-- Drop the phantom tags, keeping the sixteen entries (euclid to_untyped). -/
def Transform3D.to_untyped {A B : Type} (t : Transform3D A B) : Transform3D UnknownUnit UnknownUnit :=
  ⟨t.m11, t.m12, t.m13, t.m14, t.m21, t.m22, t.m23, t.m24,
   t.m31, t.m32, t.m33, t.m34, t.m41, t.m42, t.m43, t.m44⟩

/-- Re-attach phantom tags to untyped entries (euclid from_untyped). -/
def Transform3D.from_untyped {A B : Type} (t : Transform3D UnknownUnit UnknownUnit) : Transform3D A B :=
  ⟨t.m11, t.m12, t.m13, t.m14, t.m21, t.m22, t.m23, t.m24,
   t.m31, t.m32, t.m33, t.m34, t.m41, t.m42, t.m43, t.m44⟩

/-! ### Views (src/webxr-api/view.rs) -/

/-- For one eye, the pose of that eye and its projection onto the display. -/
structure View (Eye : Type) where
  transform : RigidTransform3D Eye Native
  projection : Transform3D Eye Display

/-- Re-tag the space parameter of a View without altering the numeric
transform or projection (View::cast_unit in src/webxr-api/view.rs). -/
def View.cast_unit {Eye NewEye : Type} (v : View Eye) : View NewEye :=
  ⟨v.transform.cast_unit, Transform3D.from_untyped v.projection.to_untyped⟩

/-- Whether a device is mono or stereo, and the views it supports. -/
inductive Views where
  | Inline : Views
  | Mono : View Viewer → Views
  | Stereo : View LeftEye → View RightEye → Views
  | StereoCapture : View LeftEye → View RightEye → View Capture → Views

/-! ### Input sources and select gestures -/

/-- Identifier of an input source. -/
abbrev InputId := Nat

/-- Which hand holds an input source. -/
inductive Handedness where
  | NoHand : Handedness
  | Left : Handedness
  | Right : Handedness
deriving DecidableEq, Repr

/-- How an input source produces its target ray. -/
inductive TargetRayMode where
  | Gaze : TargetRayMode
  | TrackedPointer : TargetRayMode
  | Screen : TargetRayMode
deriving DecidableEq, Repr

/-- Modelled from the spec: the input-source descriptor of the webxr-api
crate (not under src); the spec lists id, handedness, target-ray mode and
profile strings. -/
structure InputSource where
  handedness : Handedness
  target_ray_mode : TargetRayMode
  id : InputId
  profiles : List String
deriving DecidableEq, Repr

/-- The raw select gesture event delivered to the device. -/
inductive SelectEvent where
  | Start : SelectEvent
  | End : SelectEvent
  | Select : SelectEvent
deriving DecidableEq, Repr

/-- Which gesture family a select event belongs to. -/
inductive SelectKind where
  | Select : SelectKind
  | Touch : SelectKind
  | Squeeze : SelectKind
deriving DecidableEq, Repr

/-- Per-input registry entry of the headless device
(struct InputInfo in src/webxr/headless/mod.rs). -/
structure InputInfo where
  source : InputSource
  active : Bool
  pointer : Option (RigidTransform3D Input Native)
  grip : Option (RigidTransform3D Input Native)
  clicking : Bool

/-! ### World geometry and hit testing -/

/-- Kind of a world region. -/
inductive EntityType where
  | Point : EntityType
  | Plane : EntityType
  | Mesh : EntityType
deriving DecidableEq, Repr

/-- Modelled from the spec: the type filter of a hit-test source; is_type
checks whether a region type passes the filter. -/
structure EntityTypes where
  point : Bool
  plane : Bool
  mesh : Bool
deriving DecidableEq, Repr

def EntityTypes.is_type (tys : EntityTypes) (ty : EntityType) : Bool :=
  match ty with
  | EntityType.Point => tys.point
  | EntityType.Plane => tys.plane
  | EntityType.Mesh => tys.mesh

/-- An intersectable triangular face in native space. -/
structure Triangle where
  first : Vec3
  second : Vec3
  third : Vec3

/-- Modelled from the spec: a world region, tagged with a region type and
holding a list of intersectable faces in native space. -/
structure MockRegion where
  faces : List Triangle
  ty : EntityType

/-- Modelled from the spec: world geometry, a collection of regions. -/
structure MockWorld where
  regions : List MockRegion

/-- A ray: an origin point and a direction, tagged by the space the
coordinates live in. -/
structure Ray (S : Type) where
  origin : Vec3
  direction : Vec3

/-- Modelled from the spec: the base-space tag of a declared hit-test space;
the base transform is selected by this tag during ray resolution. -/
inductive BaseSpace where
  | Local : BaseSpace
  | Floor : BaseSpace
  | Viewer : BaseSpace
  | TargetRay : InputId → BaseSpace
  | Grip : InputId → BaseSpace

/-- Modelled from the spec: a declared space, a base-space tag plus a fixed
offset transform. -/
structure Space where
  base : BaseSpace
  offset : RigidTransform3D ApiSpace ApiSpace

/-- Identifier of a hit-test source. -/
abbrev HitTestId := Nat

/-- Modelled from the spec: a registered hit-test source with its id, its
ray in a declared space, and its region type filter. -/
structure HitTestSource where
  id : HitTestId
  space : Space
  ray : Ray ApiSpace
  types : EntityTypes

/-- One hit: the space-relative hit pose and the id of the source that
produced it. -/
structure HitTestResult where
  space : RigidTransform3D HitTestSpace Native
  id : HitTestId

/-- Modelled from the spec: triangle intersection of the webxr-api crate
(not under src).  Intersects a native-space ray with a triangular face; a
non-null intersection produces the hit pose at the intersection point. -/
def Triangle.intersect (tri : Triangle) (ray : Ray Native) : Option (RigidTransform3D HitTestSpace Native) :=
  let e1 := tri.second.sub tri.first
  let e2 := tri.third.sub tri.first
  let n := e1.cross e2
  let denom := ray.direction.dot n
  if denom = 0 then none
  else
    let t := ((tri.first.sub ray.origin).dot n) / denom
    if t < 0 then none
    else
      let p := ray.origin.add (Vec3.smul t ray.direction)
      let c0 := ((tri.second.sub tri.first).cross (p.sub tri.first)).dot n
      let c1 := ((tri.third.sub tri.second).cross (p.sub tri.second)).dot n
      let c2 := ((tri.first.sub tri.third).cross (p.sub tri.third)).dot n
      if 0 ≤ c0 ∧ 0 ≤ c1 ∧ 0 ≤ c2 then some ⟨Quat.one, p⟩ else none

/-! ### Frames and events -/

/-- Per-frame input data (press and squeeze flags are always reported false
by the headless device). -/
structure InputFrame where
  id : InputId
  target_ray_origin : Option (RigidTransform3D Input Native)
  grip_origin : Option (RigidTransform3D Input Native)
  pressed : Bool
  squeezed : Bool

/-- Events generated during frame assembly and carried on the frame. -/
inductive FrameUpdateEvent where
  | UpdateFloorTransform : Option (RigidTransform3D Native Floor) → FrameUpdateEvent
  | UpdateViews : Views → FrameUpdateEvent
  | HitTestSourceAdded : HitTestId → FrameUpdateEvent

/-- The per-tick bundle delivered to the session consumer. -/
structure Frame where
  transform : Option (RigidTransform3D Viewer Native)
  inputs : List InputFrame
  events : List FrameUpdateEvent
  time_ns : Nat
  sent_time : Nat
  hit_test_results : List HitTestResult

/-- Session visibility states. -/
inductive Visibility where
  | Visible : Visibility
  | Hidden : Visibility
  | VisibleBlurred : Visibility

/-- The event set delivered through the event buffer or sink. -/
inductive Event where
  | VisibilityChange : Visibility → Event
  | AddInput : InputSource → Event
  | UpdateInput : InputId → InputSource → Event
  | RemoveInput : InputId → Event
  | Select : InputId → SelectKind → SelectEvent → Frame → Event
  | SessionEnd : Event

/-- An opaque cross-thread channel endpoint. -/
structure Sender (T : Type) where
  channel : Nat

/-- Modelled from the spec: the buffered-then-live event sink, an explicit
two-state object; Buffering holds the queue of events raised before a sink
is attached, Attached records the events delivered to the sink (the drained
queue first, in original order). -/
inductive EventBuffer where
  | Buffering : List Event → EventBuffer
  | Attached : Sender Event → List Event → EventBuffer

/-- Raise one event: buffer it, or deliver it to the attached sink. -/
def EventBuffer.callback (buf : EventBuffer) (e : Event) : EventBuffer :=
  match buf with
  | EventBuffer.Buffering q => EventBuffer.Buffering (q ++ [e])
  | EventBuffer.Attached s sent => EventBuffer.Attached s (sent ++ [e])

/-- Attach a sink, draining the buffered queue to it in original order. -/
def EventBuffer.upgrade (buf : EventBuffer) (dest : Sender Event) : EventBuffer :=
  match buf with
  | EventBuffer.Buffering q => EventBuffer.Attached dest q
  | EventBuffer.Attached _ sent => EventBuffer.Attached dest sent

/-- The events the buffer has seen, in order. -/
def EventBuffer.emitted : EventBuffer → List Event
  | EventBuffer.Buffering q => q
  | EventBuffer.Attached _ sent => sent

/-! ### Hit-test registry and clip planes -/

/-- Modelled from the spec: the hit-test registry of the webxr-api util
module (not under src); sources are stored as pending (uncommitted) on
request, moved into the committed set by commit_tests, which returns one
hit-test-source-added event per newly committed source. -/
structure HitTestList where
  tests : List HitTestSource
  uncommitted : List HitTestSource

def HitTestList.request_hit_test (l : HitTestList) (source : HitTestSource) : HitTestList :=
  { l with uncommitted := l.uncommitted ++ [source] }

def HitTestList.commit_tests (l : HitTestList) : List FrameUpdateEvent × HitTestList :=
  (l.uncommitted.map (fun s => FrameUpdateEvent.HitTestSourceAdded s.id),
   ⟨l.tests ++ l.uncommitted, []⟩)

def HitTestList.cancel_hit_test (l : HitTestList) (id : HitTestId) : HitTestList :=
  ⟨l.tests.filter (fun s => s.id != id), l.uncommitted.filter (fun s => s.id != id)⟩

/-- Modelled from the spec: near and far clip planes configured per session. -/
structure ClipPlanes where
  near : ℚ
  far : ℚ

def ClipPlanes.update (_c : ClipPlanes) (near far : ℚ) : ClipPlanes := ⟨near, far⟩

/-- Modelled from the spec: a projection computed from a field-of-view
specification and the currently configured clip planes (the util helper is
not under src; its exact entries are irrelevant to every claim). -/
def fov_to_projection_matrix {Eye : Type} (l r t b : ℚ) (p : ClipPlanes) : Transform3D Eye Display :=
  ⟨r - l, 0, 0, 0,
   0, t - b, 0, 0,
   0, 0, p.far - p.near, p.near * p.far,
   0, 0, -1, 0⟩

/-! ### Mock configuration types (the control protocol's payloads) -/

/-- Modelled from the spec: the raw per-eye view configuration delivered by
the mock protocol; an optional field-of-view specification overrides the
projection during frame assembly. -/
structure MockViewInit (Eye : Type) where
  transform : RigidTransform3D Eye Native
  projection : Transform3D Eye Display
  fov : Option (ℚ × ℚ × ℚ × ℚ)

/-- Modelled from the spec: the raw view configuration, mono or stereo. -/
inductive MockViewsInit where
  | Mono : MockViewInit Viewer → MockViewsInit
  | Stereo : MockViewInit LeftEye → MockViewInit RightEye → MockViewsInit

/-- Modelled from the spec: the payload of an add-input command. -/
structure MockInputInit where
  source : InputSource
  pointer_origin : Option (RigidTransform3D Input Native)
  grip_origin : Option (RigidTransform3D Input Native)

/-- Sub-commands addressed to one input source by id. -/
inductive MockInputMsg where
  | SetHandedness : Handedness → MockInputMsg
  | SetProfiles : List String → MockInputMsg
  | SetTargetRayMode : TargetRayMode → MockInputMsg
  | SetPointerOrigin : Option (RigidTransform3D Input Native) → MockInputMsg
  | SetGripOrigin : Option (RigidTransform3D Input Native) → MockInputMsg
  | TriggerSelect : SelectKind → SelectEvent → MockInputMsg
  | Disconnect : MockInputMsg
  | Reconnect : MockInputMsg

/-- The control-protocol command set consumed by the device loop. -/
inductive MockDeviceMsg where
  | SetWorld : MockWorld → MockDeviceMsg
  | ClearWorld : MockDeviceMsg
  | SetViewerOrigin : Option (RigidTransform3D Viewer Native) → MockDeviceMsg
  | SetFloorOrigin : Option (RigidTransform3D Floor Native) → MockDeviceMsg
  | SetViews : MockViewsInit → MockDeviceMsg
  | VisibilityChange : Visibility → MockDeviceMsg
  | AddInputSource : MockInputInit → MockDeviceMsg
  | MessageInputSource : InputId → MockInputMsg → MockDeviceMsg
  | Disconnect : Sender Unit → MockDeviceMsg

/-! ### Shared device state (struct HeadlessDeviceData) -/

/-- An opaque handle used to signal session shutdown. -/
structure Quitter where
  channel : Nat

/-- The shared mutable record describing one simulated device
(struct HeadlessDeviceData in src/webxr/headless/mod.rs). -/
structure HeadlessDeviceData where
  floor_transform : Option (RigidTransform3D Native Floor)
  viewer_origin : Option (RigidTransform3D Viewer Native)
  supported_features : List String
  views : MockViewsInit
  needs_view_update : Bool
  needs_floor_update : Bool
  inputs : List InputInfo
  events : EventBuffer
  quitter : Option Quitter
  disconnected : Bool
  world : Option MockWorld

/-- Assemble the frame skeleton: viewer transform and one InputFrame per
active input, with press and squeeze always false
(HeadlessDeviceData::get_frame).  The clock reading is passed in. -/
def HeadlessDeviceData.get_frame (data : HeadlessDeviceData) (time_ns : Nat) : Frame :=
  { transform := data.viewer_origin
    inputs := (data.inputs.filter (fun i => i.active)).map (fun i =>
      { id := i.source.id
        target_ray_origin := i.pointer
        grip_origin := i.grip
        pressed := false
        squeezed := false })
    events := []
    time_ns := time_ns
    sent_time := 0
    hit_test_results := [] }

/-- Apply one input sub-command to the registry entry at index idx, the
first entry whose id matches (the MessageInputSource arm of
HeadlessDeviceData::handle_msg). -/
def HeadlessDeviceData.handle_input_msg (data : HeadlessDeviceData) (idx : Nat) (id : InputId)
    (msg : MockInputMsg) (time_ns : Nat) : HeadlessDeviceData :=
  match data.inputs[idx]? with
  | none => data
  | some input =>
    match msg with
    | MockInputMsg.SetHandedness h =>
      let source := { input.source with handedness := h }
      { data with inputs := data.inputs.set idx { input with source := source }
                  events := data.events.callback (Event.UpdateInput id source) }
    | MockInputMsg.SetProfiles p =>
      let source := { input.source with profiles := p }
      { data with inputs := data.inputs.set idx { input with source := source }
                  events := data.events.callback (Event.UpdateInput id source) }
    | MockInputMsg.SetTargetRayMode t =>
      let source := { input.source with target_ray_mode := t }
      { data with inputs := data.inputs.set idx { input with source := source }
                  events := data.events.callback (Event.UpdateInput id source) }
    | MockInputMsg.SetPointerOrigin p =>
      { data with inputs := data.inputs.set idx { input with pointer := p } }
    | MockInputMsg.SetGripOrigin p =>
      { data with inputs := data.inputs.set idx { input with grip := p } }
    | MockInputMsg.TriggerSelect kind event =>
      if input.active = false then data
      else
        let clicking := input.clicking
        let data2 := { data with
          inputs := data.inputs.set idx { input with clicking := event == SelectEvent.Start } }
        let frame := data2.get_frame time_ns
        match event with
        | SelectEvent.Start =>
          { data2 with events := data2.events.callback (Event.Select id kind SelectEvent.Start frame) }
        | SelectEvent.End =>
          if clicking then
            { data2 with events := data2.events.callback (Event.Select id kind SelectEvent.Select frame) }
          else
            { data2 with events := data2.events.callback (Event.Select id kind SelectEvent.End frame) }
        | SelectEvent.Select =>
          let once := data2.events.callback (Event.Select id kind SelectEvent.Start frame)
          { data2 with events := once.callback (Event.Select id kind SelectEvent.Select frame) }
    | MockInputMsg.Disconnect =>
      if input.active then
        { data with inputs := data.inputs.set idx { input with active := false, clicking := false }
                    events := data.events.callback (Event.RemoveInput input.source.id) }
      else data
    | MockInputMsg.Reconnect =>
      if input.active = false then
        { data with inputs := data.inputs.set idx { input with active := true }
                    events := data.events.callback (Event.AddInput input.source) }
      else data

/-- Apply one control-protocol command to the shared state; the Bool is
whether the loop keeps running (HeadlessDeviceData::handle_msg).  The clock
reading is passed in for the frames snapshotted by select events. -/
def HeadlessDeviceData.handle_msg (data : HeadlessDeviceData) (msg : MockDeviceMsg)
    (time_ns : Nat) : HeadlessDeviceData × Bool :=
  match msg with
  | MockDeviceMsg.SetWorld w => ({ data with world := some w }, true)
  | MockDeviceMsg.ClearWorld => ({ data with world := none }, true)
  | MockDeviceMsg.SetViewerOrigin origin => ({ data with viewer_origin := origin }, true)
  | MockDeviceMsg.SetFloorOrigin origin =>
    ({ data with floor_transform := origin.map (fun f => f.inverse)
                 needs_floor_update := true }, true)
  | MockDeviceMsg.SetViews views => ({ data with views := views, needs_view_update := true }, true)
  | MockDeviceMsg.VisibilityChange v =>
    ({ data with events := data.events.callback (Event.VisibilityChange v) }, true)
  | MockDeviceMsg.AddInputSource init =>
    ({ data with
        inputs := data.inputs ++ [{ source := init.source
                                    active := true
                                    pointer := init.pointer_origin
                                    grip := init.grip_origin
                                    clicking := false }]
        events := data.events.callback (Event.AddInput init.source) }, true)
  | MockDeviceMsg.MessageInputSource id m =>
    match data.inputs.findIdx? (fun i => i.source.id == id) with
    | none => (data, true)
    | some idx => (data.handle_input_msg idx id m time_ns, true)
  | MockDeviceMsg.Disconnect _ => ({ data with disconnected := true }, false)

/-- Resolve a declared-space ray to a ray in the device's native frame:
select the base transform by the base-space tag, compose with the space's
offset, and transform origin and direction
(HeadlessDeviceData::native_ray).  None when the base transform is absent. -/
def HeadlessDeviceData.native_ray (data : HeadlessDeviceData) (ray : Ray ApiSpace)
    (space : Space) : Option (Ray Native) :=
  let base : Option (RigidTransform3D ApiSpace Native) :=
    match space.base with
    | BaseSpace.Local => some RigidTransform3D.identity
    | BaseSpace.Floor => data.floor_transform.map (fun f => f.inverse.cast_unit)
    | BaseSpace.Viewer => data.viewer_origin.map (fun v => v.cast_unit)
    | BaseSpace.TargetRay id =>
      (data.inputs.find? (fun i => i.source.id == id)).bind
        (fun i => i.pointer.map (fun p => p.cast_unit))
    | BaseSpace.Grip id =>
      (data.inputs.find? (fun i => i.source.id == id)).bind
        (fun i => i.grip.map (fun g => g.cast_unit))
  match base with
  | none => none
  | some origin =>
    let space_origin := origin.pre_transform space.offset
    let origin_rigid : RigidTransform3D ApiSpace ApiSpace := ⟨Quat.one, ray.origin⟩
    some { origin := (origin_rigid.post_transform space_origin).translation
           direction := space_origin.rotation.rotate ray.direction }

/-! ### The device actor (struct HeadlessDevice) -/

/-- Session modes. -/
inductive SessionMode where
  | Inline : SessionMode
  | ImmersiveVR : SessionMode
  | ImmersiveAR : SessionMode
deriving DecidableEq, Repr

/-- The per-session device actor: its own clip planes and hit-test registry
plus the session mode and granted features (struct HeadlessDevice; the
shared HeadlessDeviceData is passed explicitly to each operation). -/
structure HeadlessDevice where
  mode : SessionMode
  clip_planes : ClipPlanes
  hit_tests : HitTestList
  granted_features : List String

/-- Build a typed View from the raw configuration, substituting a
field-of-view specification with a projection computed from the clip planes
(the free function view in src/webxr/headless/mod.rs). -/
def view {Eye : Type} (init : MockViewInit Eye) (clip_planes : ClipPlanes) : View Eye :=
  let projection :=
    match init.fov with
    | some (l, r, t, b) => fov_to_projection_matrix l r t b clip_planes
    | none => init.projection
  ⟨init.transform, projection⟩

/-- The views the session reports: Inline mode always reports Inline,
otherwise the typed Views value is rebuilt from the raw configuration
(HeadlessDevice::views). -/
def HeadlessDevice.views (dev : HeadlessDevice) (data : HeadlessDeviceData) : Views :=
  if dev.mode = SessionMode.Inline then Views.Inline
  else
    match data.views with
    | MockViewsInit.Mono one => Views.Mono (view one dev.clip_planes)
    | MockViewsInit.Stereo one two =>
      Views.Stereo (view one dev.clip_planes) (view two dev.clip_planes)

/-- The hits one committed source contributes: every non-null intersection
of its resolved ray with a face of a region whose type passes the source's
filter, in discovery order. -/
def source_hits (world : MockWorld) (source : HitTestSource) (ray : Ray Native) : List HitTestResult :=
  ((world.regions.filter (fun region => source.types.is_type region.ty)).flatMap
      (fun region => region.faces)).filterMap
    (fun triangle => (triangle.intersect ray).map (fun space => ⟨space, source.id⟩))

/-- The per-frame traversal of committed hit-test sources: resolve each ray
in order and collect its hits; the first unresolvable ray stops the whole
traversal (the break in HeadlessDevice::wait_for_animation_frame). -/
def hit_test_loop (data : HeadlessDeviceData) (world : MockWorld) :
    List HitTestSource → List HitTestResult
  | [] => []
  | source :: rest =>
    match data.native_ray source.ray source.space with
    | none => []
    | some ray => source_hits world source ray ++ hit_test_loop data world rest

/-- Assemble one animation frame under the state lock: frame skeleton,
newly committed hit-test-added events, view-update event if the view-dirty
flag is set (then cleared), hit-test results, floor-update event if the
floor-dirty flag is set (then cleared)
(HeadlessDevice::wait_for_animation_frame). -/
def HeadlessDevice.wait_for_animation_frame (dev : HeadlessDevice) (data : HeadlessDeviceData)
    (time_ns : Nat) : Option Frame × HeadlessDevice × HeadlessDeviceData :=
  let frame0 := data.get_frame time_ns
  let committed := dev.hit_tests.commit_tests
  let dev1 : HeadlessDevice := { dev with hit_tests := committed.2 }
  let frame1 := { frame0 with events := committed.1 }
  let step2 : Frame × HeadlessDeviceData :=
    if data.needs_view_update then
      let data1 := { data with needs_view_update := false }
      ({ frame1 with events := frame1.events ++ [FrameUpdateEvent.UpdateViews (dev1.views data1)] },
       data1)
    else (frame1, data)
  let frame2 := step2.1
  let data2 := step2.2
  let frame3 :=
    match data2.world with
    | some world =>
      { frame2 with hit_test_results :=
          frame2.hit_test_results ++ hit_test_loop data2 world dev1.hit_tests.tests }
    | none => frame2
  let step4 : Frame × HeadlessDeviceData :=
    if data2.needs_floor_update then
      ({ frame3 with events :=
           frame3.events ++ [FrameUpdateEvent.UpdateFloorTransform data2.floor_transform] },
       { data2 with needs_floor_update := false })
    else (frame3, data2)
  (some step4.1, dev1, step4.2)

/-- Rendering is a pass-through (HeadlessDevice::render_animation_frame);
the drawable surface is opaque. -/
def HeadlessDevice.render_animation_frame (_dev : HeadlessDevice) (surface : Nat) : Nat :=
  surface

/-- The initial input list is always empty (HeadlessDevice::initial_inputs). -/
def HeadlessDevice.initial_inputs (_dev : HeadlessDevice) : List InputSource := []

/-- Attach the event delivery sink (HeadlessDevice::set_event_dest). -/
def HeadlessDevice.set_event_dest (dev : HeadlessDevice) (data : HeadlessDeviceData)
    (dest : Sender Event) : HeadlessDevice × HeadlessDeviceData :=
  (dev, { data with events := data.events.upgrade dest })

/-- Emit a session-end event (HeadlessDevice::quit). -/
def HeadlessDevice.quit (dev : HeadlessDevice) (data : HeadlessDeviceData) :
    HeadlessDevice × HeadlessDeviceData :=
  (dev, { data with events := data.events.callback Event.SessionEnd })

/-- Store the quit callback in the shared state (HeadlessDevice::set_quitter). -/
def HeadlessDevice.set_quitter (dev : HeadlessDevice) (data : HeadlessDeviceData)
    (quitter : Quitter) : HeadlessDevice × HeadlessDeviceData :=
  (dev, { data with quitter := some quitter })

/-- Update the device's own clip planes and mark the views dirty
(HeadlessDevice::update_clip_planes). -/
def HeadlessDevice.update_clip_planes (dev : HeadlessDevice) (data : HeadlessDeviceData)
    (near far : ℚ) : HeadlessDevice × HeadlessDeviceData :=
  ({ dev with clip_planes := dev.clip_planes.update near far },
   { data with needs_view_update := true })

/-- Register a hit-test source as pending (HeadlessDevice::request_hit_test). -/
def HeadlessDevice.request_hit_test (dev : HeadlessDevice) (data : HeadlessDeviceData)
    (source : HitTestSource) : HeadlessDevice × HeadlessDeviceData :=
  ({ dev with hit_tests := dev.hit_tests.request_hit_test source }, data)

/-- Remove a hit-test source, pending or committed
(HeadlessDevice::cancel_hit_test). -/
def HeadlessDevice.cancel_hit_test (dev : HeadlessDevice) (data : HeadlessDeviceData)
    (id : HitTestId) : HeadlessDevice × HeadlessDeviceData :=
  ({ dev with hit_tests := dev.hit_tests.cancel_hit_test id }, data)

/-! ### Discovery (struct HeadlessDiscovery) -/

/-- The only failure kinds this core surfaces: NoMatchingDevice for an
unsupported or disconnected device, and a propagated feature-validation
failure. -/
inductive Error where
  | NoMatchingDevice : Error
  | UnsupportedFeature : String → Error
deriving DecidableEq, Repr

/-- What a session request carries: required and optional feature lists. -/
structure SessionInit where
  required_features : List String
  optional_features : List String

/-- Modelled from the spec: the external feature-validation collaborator;
it reduces the requested feature list against the supported-feature list
into a granted subset, or fails with its own failure kind, which is
propagated unchanged. -/
def SessionInit.validate (init : SessionInit) (_mode : SessionMode)
    (supported : List String) : Except Error (List String) :=
  match init.required_features.find? (fun f => !(supported.contains f)) with
  | some f => Except.error (Error.UnsupportedFeature f)
  | none =>
    Except.ok (init.required_features ++ init.optional_features.filter
      (fun f => supported.contains f))

/-- The per-mode support configuration fixed at device construction
(struct HeadlessDiscovery without the shared-state handle). -/
structure HeadlessDiscovery where
  supports_vr : Bool
  supports_inline : Bool
  supports_ar : Bool

/-- Whether the simulated backend can satisfy a session mode: false
unconditionally once disconnected, otherwise the per-mode boolean
(HeadlessDiscovery::supports_session). -/
def HeadlessDiscovery.supports_session (disc : HeadlessDiscovery) (data : HeadlessDeviceData)
    (mode : SessionMode) : Bool :=
  if data.disconnected then false
  else
    match mode with
    | SessionMode.Inline => disc.supports_inline
    | SessionMode.ImmersiveVR => disc.supports_vr
    | SessionMode.ImmersiveAR => disc.supports_ar

/-- Request a session: NoMatchingDevice when the mode is unsupported,
otherwise validate the requested features and spawn the device actor with
default clip planes, the granted features and an empty hit-test registry
(HeadlessDiscovery::request_session; the builder's spawn is modelled from
the spec as returning the constructed actor). -/
def HeadlessDiscovery.request_session (disc : HeadlessDiscovery) (data : HeadlessDeviceData)
    (mode : SessionMode) (init : SessionInit) : Except Error HeadlessDevice :=
  if disc.supports_session data mode = false then Except.error Error.NoMatchingDevice
  else
    match init.validate mode data.supported_features with
    | Except.error e => Except.error e
    | Except.ok granted =>
      Except.ok { mode := mode
                  clip_planes := ⟨1 / 10, 1000⟩
                  hit_tests := ⟨[], []⟩
                  granted_features := granted }

/-- Raise a list of events in order. -/
def EventBuffer.callback_all (buf : EventBuffer) (es : List Event) : EventBuffer :=
  es.foldl EventBuffer.callback buf

/-- The events the select-gesture state machine emits for one TriggerSelect,
as the normalization in the code produces them: the raw event, the captured
clicking flag and the frame snapshot determine the emitted list. -/
def select_events (id : InputId) (kind : SelectKind) (ev : SelectEvent)
    (was_clicking : Bool) (frame : Frame) : List Event :=
  match ev with
  | SelectEvent.Start => [Event.Select id kind SelectEvent.Start frame]
  | SelectEvent.End =>
    if was_clicking then [Event.Select id kind SelectEvent.Select frame]
    else [Event.Select id kind SelectEvent.End frame]
  | SelectEvent.Select =>
    [Event.Select id kind SelectEvent.Start frame, Event.Select id kind SelectEvent.Select frame]

/-- The fields of the shared state the control loop alone is supposed to
own: holds when b keeps a's floor transform, viewer origin, views, inputs,
world and disconnected flag. -/
def core_preserved (a b : HeadlessDeviceData) : Prop :=
  b.floor_transform = a.floor_transform ∧ b.viewer_origin = a.viewer_origin ∧
  b.views = a.views ∧ b.inputs = a.inputs ∧ b.world = a.world ∧
  b.disconnected = a.disconnected

/-- A minimal raw view configuration for concrete runs. -/
def sample_views_init : MockViewsInit :=
  MockViewsInit.Mono ⟨RigidTransform3D.identity, Transform3D.identity, none⟩

/-- A minimal shared state for concrete runs. -/
def sample_data : HeadlessDeviceData :=
  { floor_transform := none
    viewer_origin := none
    supported_features := []
    views := sample_views_init
    needs_view_update := false
    needs_floor_update := false
    inputs := []
    events := EventBuffer.Buffering []
    quitter := none
    disconnected := false
    world := none }

/-- A minimal device actor for concrete runs. -/
def sample_device : HeadlessDevice :=
  { mode := SessionMode.ImmersiveVR
    clip_planes := ⟨1 / 10, 1000⟩
    hit_tests := ⟨[], []⟩
    granted_features := [] }

/-- A concrete triangular face in the plane one unit ahead, containing the
point hit by a ray from the origin along the z axis. -/
def sample_triangle : Triangle := ⟨⟨0, 0, 1⟩, ⟨1, 0, 1⟩, ⟨0, 1, 1⟩⟩

/-- A concrete world: one Plane region holding the sample triangle. -/
def sample_world : MockWorld := ⟨[⟨[sample_triangle], EntityType.Plane⟩]⟩

/-- A hit-test source declared against the Floor base space; with no floor
calibration its ray cannot resolve. -/
def bad_floor_source : HitTestSource :=
  { id := 1
    space := ⟨BaseSpace.Floor, RigidTransform3D.identity⟩
    ray := ⟨Vec3.zero, ⟨0, 0, 1⟩⟩
    types := ⟨false, true, false⟩ }

/-- A hit-test source declared against the Local base space: an identity
offset and a ray from the origin along the z axis, filtering for Plane
regions. -/
def local_source : HitTestSource :=
  { id := 2
    space := ⟨BaseSpace.Local, RigidTransform3D.identity⟩
    ray := ⟨Vec3.zero, ⟨0, 0, 1⟩⟩
    types := ⟨false, true, false⟩ }

/-- The native-frame ray the local source resolves to. -/
def resolved_ray : Ray Native := ⟨Vec3.zero, ⟨0, 0, 1⟩⟩

/-- The sample shared state with the sample world installed. -/
def c2_data : HeadlessDeviceData := { sample_data with world := some sample_world }

/-- A device with one committed unresolvable source. -/
def c2_device : HeadlessDevice := { sample_device with hit_tests := ⟨[bad_floor_source], []⟩ }

/-- A device with an unresolvable source committed before a resolvable one. -/
def c8_device : HeadlessDevice :=
  { sample_device with hit_tests := ⟨[bad_floor_source, local_source], []⟩ }

/-- A device with one committed resolvable source. -/
def c8w_device : HeadlessDevice := { sample_device with hit_tests := ⟨[local_source], []⟩ }

/-- A concrete active input entry with id 7. -/
def sample_input_info : InputInfo :=
  { source := { handedness := Handedness.NoHand
                target_ray_mode := TargetRayMode.TrackedPointer
                id := 7
                profiles := [] }
    active := true
    pointer := none
    grip := none
    clicking := false }

/-- The sample shared state with one active input registered. -/
def c1_data : HeadlessDeviceData := { sample_data with inputs := [sample_input_info] }

/-! ### Helper lemmas -/

/-- The hit-test traversal reads only the floor transform, the viewer
origin and the input registry of the shared state. -/
theorem hit_test_loop_congr (d1 d2 : HeadlessDeviceData) (w : MockWorld)
    (l : List HitTestSource)
    (hft : d1.floor_transform = d2.floor_transform)
    (hvo : d1.viewer_origin = d2.viewer_origin)
    (hin : d1.inputs = d2.inputs) :
    hit_test_loop d1 w l = hit_test_loop d2 w l := by
  have hnr : ∀ (r : Ray ApiSpace) (sp : Space), d1.native_ray r sp = d2.native_ray r sp := by
    intro r sp
    unfold HeadlessDeviceData.native_ray
    rw [hft, hvo, hin]
  induction l with
  | nil => rfl
  | cons s rest ih =>
    simp only [hit_test_loop]
    rw [hnr]
    cases d2.native_ray s.ray s.space <;> simp [ih]

/-- Closed form of one frame assembly: the frame delivered, the device with
its pending hit-test sources committed, and the shared state with both dirty
flags cleared. -/
theorem wait_for_animation_frame_eq (dev : HeadlessDevice) (data : HeadlessDeviceData) (t : Nat) :
    dev.wait_for_animation_frame data t =
      (some { transform := data.viewer_origin
              inputs := (data.inputs.filter (fun i => i.active)).map (fun i =>
                { id := i.source.id
                  target_ray_origin := i.pointer
                  grip_origin := i.grip
                  pressed := false
                  squeezed := false })
              events :=
                (dev.hit_tests.uncommitted.map (fun s => FrameUpdateEvent.HitTestSourceAdded s.id))
                ++ (if data.needs_view_update then [FrameUpdateEvent.UpdateViews (dev.views data)] else [])
                ++ (if data.needs_floor_update then [FrameUpdateEvent.UpdateFloorTransform data.floor_transform] else [])
              time_ns := t
              sent_time := 0
              hit_test_results :=
                match data.world with
                | some w =>
                  hit_test_loop data w (dev.hit_tests.tests ++ dev.hit_tests.uncommitted)
                | none => [] },
       { dev with hit_tests := ⟨dev.hit_tests.tests ++ dev.hit_tests.uncommitted, []⟩ },
       { data with needs_view_update := false, needs_floor_update := false }) := by
  obtain ⟨ft, vo, sf, vs, nvu, nfu, inp, evb, qt, dc, wd⟩ := data
  cases nvu <;> cases nfu <;> cases wd <;>
    simp [HeadlessDevice.wait_for_animation_frame, HeadlessDeviceData.get_frame,
      HitTestList.commit_tests, HeadlessDevice.views] <;>
    exact hit_test_loop_congr _ _ _ _ rfl rfl rfl

/-- C3: wait_for_animation_frame always returns a populated frame whose
input list has exactly one InputFrame per active registry entry (inactive
entries excluded), every InputFrame reporting pressed and squeezed false. -/
theorem wait_frame_always_populated
    (dev : HeadlessDevice) (data : HeadlessDeviceData) (t : Nat) :
    ∃ frame, (dev.wait_for_animation_frame data t).1 = some frame ∧
      frame.inputs = (data.inputs.filter (fun i => i.active)).map (fun i =>
        { id := i.source.id
          target_ray_origin := i.pointer
          grip_origin := i.grip
          pressed := false
          squeezed := false }) ∧
      frame.inputs.all (fun f => f.pressed == false && f.squeezed == false) = true := by
  rw [wait_for_animation_frame_eq]
  refine ⟨_, rfl, rfl, ?_⟩
  simp only [List.all_eq_true, List.mem_map, List.mem_filter]
  rintro f ⟨i, hi, rfl⟩
  rfl

/-- C4: within one assembled frame, the frame-assembly events appear in the
fixed order hit-test-source-added first, then the view-update event exactly
when the view-dirty flag was set, then the floor-update event exactly when
the floor-dirty flag was set; both flags are cleared. -/
theorem frame_assembly_event_order
    (dev : HeadlessDevice) (data : HeadlessDeviceData) (t : Nat) :
    ∃ frame dev2 data2,
      dev.wait_for_animation_frame data t = (some frame, dev2, data2) ∧
      frame.events =
        (dev.hit_tests.uncommitted.map (fun s => FrameUpdateEvent.HitTestSourceAdded s.id))
        ++ (if data.needs_view_update then [FrameUpdateEvent.UpdateViews (dev.views data)] else [])
        ++ (if data.needs_floor_update then [FrameUpdateEvent.UpdateFloorTransform data.floor_transform] else []) ∧
      data2.needs_view_update = false ∧ data2.needs_floor_update = false := by
  rw [wait_for_animation_frame_eq]
  exact ⟨_, _, _, rfl, rfl, rfl, rfl⟩

/-- Input sub-commands never touch the dirty flags of the shared state. -/
theorem handle_input_msg_preserves_flags (data : HeadlessDeviceData) (idx : Nat)
    (id : InputId) (m : MockInputMsg) (t : Nat) :
    (data.handle_input_msg idx id m t).needs_floor_update = data.needs_floor_update ∧
    (data.handle_input_msg idx id m t).needs_view_update = data.needs_view_update := by
  unfold HeadlessDeviceData.handle_input_msg
  cases hg : data.inputs[idx]? with
  | none => exact ⟨rfl, rfl⟩
  | some input =>
    obtain ⟨src, act, ptr, grp, clk⟩ := input
    cases m <;> cases act <;> cases clk <;>
      first
        | exact ⟨rfl, rfl⟩
        | (rename_i kind ev; cases ev <;> exact ⟨rfl, rfl⟩)

/-- C7: SetFloorOrigin stores the inverse of its payload as the floor
transform and sets the floor-dirty flag; no other command sets that flag;
and the next frame assembly appends a floor-update event carrying the
current floor transform as the last frame event, then clears the flag. -/
theorem set_floor_origin_floor_update
    (data : HeadlessDeviceData) (origin : Option (RigidTransform3D Floor Native)) (t : Nat) :
    (data.handle_msg (MockDeviceMsg.SetFloorOrigin origin) t
      = ({ data with floor_transform := origin.map (fun f => f.inverse)
                     needs_floor_update := true }, true)) ∧
    (∀ msg : MockDeviceMsg, (∀ o2, msg ≠ MockDeviceMsg.SetFloorOrigin o2) →
      ((data.handle_msg msg t).1).needs_floor_update = data.needs_floor_update) ∧
    (∀ dev : HeadlessDevice, data.needs_floor_update = true →
      ∃ frame dev2 data2, dev.wait_for_animation_frame data t = (some frame, dev2, data2) ∧
        frame.events.getLast? = some (FrameUpdateEvent.UpdateFloorTransform data.floor_transform) ∧
        data2.needs_floor_update = false) := by
  refine ⟨rfl, ?_, ?_⟩
  · intro msg hne
    cases msg with
    | SetFloorOrigin o => exact absurd rfl (hne o)
    | MessageInputSource id m =>
      simp only [HeadlessDeviceData.handle_msg]
      cases data.inputs.findIdx? (fun i => i.source.id == id) with
      | none => rfl
      | some idx => exact (handle_input_msg_preserves_flags data idx id m t).1
    | SetWorld w => rfl
    | ClearWorld => rfl
    | SetViewerOrigin o => rfl
    | SetViews v => rfl
    | VisibilityChange v => rfl
    | AddInputSource i => rfl
    | Disconnect s => rfl
  · intro dev hnfu
    rw [wait_for_animation_frame_eq]
    refine ⟨_, _, _, rfl, ?_, rfl⟩
    rw [hnfu]
    simp only [if_true]
    exact List.getLast?_concat _

/-- C1: for an input that is active, TriggerSelect captures the previous
clicking flag, sets clicking to whether the raw event is Start, and emits
the normalized select events (Start as is; End as Select when previously
clicking, as End otherwise; a Select pulse as a Start/Select pair sharing
one frame snapshot); for an inactive input it emits nothing and changes
nothing. -/
theorem trigger_select_normalization
    (data : HeadlessDeviceData) (id : InputId) (kind : SelectKind) (ev : SelectEvent)
    (t : Nat) (idx : Nat) (input : InputInfo)
    (hfind : data.inputs.findIdx? (fun i => i.source.id == id) = some idx)
    (hget : data.inputs[idx]? = some input) :
    (input.active = false →
      data.handle_msg (MockDeviceMsg.MessageInputSource id (MockInputMsg.TriggerSelect kind ev)) t
        = (data, true)) ∧
    (input.active = true →
      data.handle_msg (MockDeviceMsg.MessageInputSource id (MockInputMsg.TriggerSelect kind ev)) t
        = (let inputs2 := data.inputs.set idx { input with clicking := ev == SelectEvent.Start }
           let frame := ({ data with inputs := inputs2 }).get_frame t
           ({ data with inputs := inputs2
                        events := data.events.callback_all
                          (select_events id kind ev input.clicking frame) }, true))) := by
  constructor
  · intro hact
    simp only [HeadlessDeviceData.handle_msg, hfind, HeadlessDeviceData.handle_input_msg, hget]
    simp [hact]
  · intro hact
    simp only [HeadlessDeviceData.handle_msg, hfind, HeadlessDeviceData.handle_input_msg, hget]
    cases ev with
    | Start => simp [hact, select_events, EventBuffer.callback_all]
    | End =>
      cases hclk : input.clicking <;>
        simp [hact, hclk, select_events, EventBuffer.callback_all]
    | Select => simp [hact, select_events, EventBuffer.callback_all]

/-- C1 witness: a Select pulse on the active input with id 7 expands into a
Start and a Select event sharing one frame snapshot. -/
theorem trigger_select_normalization_witness :
    c1_data.handle_msg
        (MockDeviceMsg.MessageInputSource 7
          (MockInputMsg.TriggerSelect SelectKind.Select SelectEvent.Select)) 0
      = (let inputs2 := c1_data.inputs.set 0
           { sample_input_info with clicking := SelectEvent.Select == SelectEvent.Start }
         let frame := ({ c1_data with inputs := inputs2 }).get_frame 0
         ({ c1_data with
              inputs := inputs2
              events := c1_data.events.callback_all
                (select_events 7 SelectKind.Select SelectEvent.Select
                  sample_input_info.clicking frame) }, true)) :=
  (trigger_select_normalization c1_data 7 SelectKind.Select SelectEvent.Select 0 0
    sample_input_info rfl rfl).2 rfl

/-- C10: AddInputSource performs no duplicate check: it appends a new
active entry to the registry unconditionally, leaving every existing entry
(including one with the same id) in place; and MessageInputSource leaves
every registry position other than the first entry matching its id
unchanged. -/
theorem add_input_appends_and_message_targets_first
    (data : HeadlessDeviceData) (init : MockInputInit) (t : Nat) :
    (((data.handle_msg (MockDeviceMsg.AddInputSource init) t).1).inputs
      = data.inputs ++ [{ source := init.source
                          active := true
                          pointer := init.pointer_origin
                          grip := init.grip_origin
                          clicking := false }]) ∧
    ∀ (id : InputId) (m : MockInputMsg) (j : Nat),
      data.inputs.findIdx? (fun i => i.source.id == id) ≠ some j →
      ((((data.handle_msg (MockDeviceMsg.MessageInputSource id m) t).1).inputs).length
        = data.inputs.length ∧
       (((data.handle_msg (MockDeviceMsg.MessageInputSource id m) t).1).inputs)[j]?
        = data.inputs[j]?) := by
  refine ⟨rfl, ?_⟩
  intro id m j hne
  cases hfind : data.inputs.findIdx? (fun i => i.source.id == id) with
  | none =>
    simp only [HeadlessDeviceData.handle_msg, hfind]
    exact ⟨trivial, trivial⟩
  | some idx =>
    have hij : idx ≠ j := fun h => hne (h ▸ hfind)
    simp only [HeadlessDeviceData.handle_msg, hfind]
    cases hg : data.inputs[idx]? with
    | none =>
      simp only [HeadlessDeviceData.handle_input_msg, hg]
      exact ⟨trivial, trivial⟩
    | some input =>
      simp only [HeadlessDeviceData.handle_input_msg, hg]
      obtain ⟨src, act, ptr, grp, clk⟩ := input
      cases m <;> cases act <;> cases clk <;>
        first
          | exact ⟨List.length_set .., List.getElem?_set_ne hij⟩
          | exact ⟨rfl, rfl⟩
          | (rename_i kind ev; cases ev <;>
              exact ⟨List.length_set .., List.getElem?_set_ne hij⟩)

/-- C5 counterexample: the claim says the quitter and the event buffer of
the shared state are never written by any Device Actor operation, yet
set_quitter stores the quitter and quit appends a session-end event to the
shared event buffer, at this concrete state. -/
theorem device_actor_writes_quitter_and_events_cex :
    ((sample_device.set_quitter sample_data ⟨3⟩).2).quitter = some ⟨3⟩ ∧
    sample_data.quitter = none ∧
    ((sample_device.quit sample_data).2).events.emitted
      = sample_data.events.emitted ++ [Event.SessionEnd] := by
  exact ⟨rfl, rfl, rfl⟩

/-- C5 amended: every mutating Device Actor operation leaves the floor
transform, viewer origin, views, inputs, world and disconnected flag of the
shared state unchanged; the operations touch only the actor's own clip
planes and hit-test registry, the dirty flags, the event buffer and the
quitter. -/
theorem device_actor_core_state_preserved
    (dev : HeadlessDevice) (data : HeadlessDeviceData) (dest : Sender Event) (q : Quitter)
    (near far : ℚ) (source : HitTestSource) (hid : HitTestId) (t : Nat) :
    core_preserved data (dev.set_event_dest data dest).2 ∧
    core_preserved data (dev.quit data).2 ∧
    core_preserved data (dev.set_quitter data q).2 ∧
    core_preserved data (dev.update_clip_planes data near far).2 ∧
    core_preserved data (dev.request_hit_test data source).2 ∧
    core_preserved data (dev.cancel_hit_test data hid).2 ∧
    core_preserved data (dev.wait_for_animation_frame data t).2.2 := by
  refine ⟨⟨rfl, rfl, rfl, rfl, rfl, rfl⟩, ⟨rfl, rfl, rfl, rfl, rfl, rfl⟩,
    ⟨rfl, rfl, rfl, rfl, rfl, rfl⟩, ⟨rfl, rfl, rfl, rfl, rfl, rfl⟩,
    ⟨rfl, rfl, rfl, rfl, rfl, rfl⟩, ⟨rfl, rfl, rfl, rfl, rfl, rfl⟩, ?_⟩
  rw [wait_for_animation_frame_eq]
  exact ⟨rfl, rfl, rfl, rfl, rfl, rfl⟩

/-- The modelled feature validation never fails with NoMatchingDevice: its
own failure kind is an unsupported-feature failure. -/
theorem validate_no_matching_device (init : SessionInit) (mode : SessionMode)
    (supported : List String) :
    init.validate mode supported ≠ Except.error Error.NoMatchingDevice := by
  unfold SessionInit.validate
  cases init.required_features.find? (fun f => !(supported.contains f)) <;> simp

/-- C6: supports_session is false whenever the device is disconnected and
otherwise returns exactly the per-mode boolean fixed at construction; and
request_session fails with NoMatchingDevice exactly when supports_session
is false. -/
theorem supports_and_request_session_spec
    (disc : HeadlessDiscovery) (data : HeadlessDeviceData) (mode : SessionMode)
    (init : SessionInit) :
    (data.disconnected = true → disc.supports_session data mode = false) ∧
    (data.disconnected = false →
      (disc.supports_session data SessionMode.Inline = disc.supports_inline ∧
       disc.supports_session data SessionMode.ImmersiveVR = disc.supports_vr ∧
       disc.supports_session data SessionMode.ImmersiveAR = disc.supports_ar)) ∧
    (disc.request_session data mode init = Except.error Error.NoMatchingDevice ↔
      disc.supports_session data mode = false) := by
  refine ⟨?_, ?_, ?_⟩
  · intro hdc
    simp [HeadlessDiscovery.supports_session, hdc]
  · intro hdc
    refine ⟨?_, ?_, ?_⟩ <;> simp [HeadlessDiscovery.supports_session, hdc]
  · cases hsup : disc.supports_session data mode with
    | false => simp [HeadlessDiscovery.request_session, hsup]
    | true =>
      cases hv : init.validate mode data.supported_features with
      | error e =>
        have hne : e ≠ Error.NoMatchingDevice := by
          intro he
          exact validate_no_matching_device init mode data.supported_features (by rw [hv, he])
        simp [HeadlessDiscovery.request_session, hsup, hv, hne]
      | ok granted =>
        simp [HeadlessDiscovery.request_session, hsup, hv]

/-- Hitting an unresolvable source stops the traversal: everything from the
failing source on contributes nothing. -/
theorem hit_test_loop_break (data : HeadlessDeviceData) (w : MockWorld)
    (pre post : List HitTestSource) (s : HitTestSource)
    (hs : data.native_ray s.ray s.space = none) :
    hit_test_loop data w (pre ++ s :: post) = hit_test_loop data w pre := by
  induction pre with
  | nil => simp [hit_test_loop, hs]
  | cons p pre ih =>
    simp only [List.cons_append, hit_test_loop]
    cases data.native_ray p.ray p.space <;> simp [ih]

/-- Over a prefix of resolvable sources the traversal distributes over
concatenation. -/
theorem hit_test_loop_append (data : HeadlessDeviceData) (w : MockWorld)
    (pre l : List HitTestSource)
    (hpre : ∀ p ∈ pre, data.native_ray p.ray p.space ≠ none) :
    hit_test_loop data w (pre ++ l) = hit_test_loop data w pre ++ hit_test_loop data w l := by
  induction pre with
  | nil => simp [hit_test_loop]
  | cons p pre ih =>
    cases hp : data.native_ray p.ray p.space with
    | none => exact absurd hp (hpre p (by simp))
    | some r =>
      have ih2 := ih (fun q hq => hpre q (by simp [hq]))
      simp [hit_test_loop, hp, ih2, List.append_assoc]

/-- The length of a filterMap is the count of inputs it keeps. -/
theorem length_filterMap_countP {α β : Type} (f : α → Option β) (l : List α) :
    (l.filterMap f).length = l.countP (fun a => (f a).isSome) := by
  induction l with
  | nil => rfl
  | cons a l ih =>
    cases hf : f a <;> simp [List.filterMap_cons, hf, List.countP_cons, ih]

/-- C2: during frame assembly with the world present, the first committed
source whose ray fails to resolve terminates the per-source traversal
entirely: the frame's hit-test results are exactly those of the sources
before it, and neither the failing source nor any later one contributes. -/
theorem hit_test_unresolvable_ray_aborts_traversal
    (dev : HeadlessDevice) (data : HeadlessDeviceData) (t : Nat) (w : MockWorld)
    (pre post : List HitTestSource) (s : HitTestSource)
    (hw : data.world = some w)
    (hl : dev.hit_tests.tests ++ dev.hit_tests.uncommitted = pre ++ s :: post)
    (hs : data.native_ray s.ray s.space = none) :
    ∃ frame dev2 data2,
      dev.wait_for_animation_frame data t = (some frame, dev2, data2) ∧
      frame.hit_test_results = hit_test_loop data w pre := by
  rw [wait_for_animation_frame_eq]
  refine ⟨_, _, _, rfl, ?_⟩
  simp only [hw]
  rw [hl, hit_test_loop_break data w pre post s hs]

/-- C2 witness: one committed Floor-based source and no floor calibration;
the frame carries no hit-test result. -/
theorem hit_test_unresolvable_ray_witness :
    ∃ frame dev2 data2,
      c2_device.wait_for_animation_frame c2_data 0 = (some frame, dev2, data2) ∧
      frame.hit_test_results = hit_test_loop c2_data sample_world [] :=
  hit_test_unresolvable_ray_aborts_traversal c2_device c2_data 0 sample_world
    [] [] bad_floor_source rfl rfl rfl

/-- C8 counterexample: the claim promises every committed source whose ray
resolves one result per matching non-null intersection, independent of the
other sources; here a resolvable source with a matching intersecting
triangle is committed after an unresolvable one, and the frame carries no
hit-test result at all. -/
theorem hit_test_skip_claim_cex :
    c2_data.world = some sample_world ∧
    c8_device.hit_tests.tests ++ c8_device.hit_tests.uncommitted
      = [bad_floor_source, local_source] ∧
    c2_data.native_ray local_source.ray local_source.space = some resolved_ray ∧
    local_source.types.is_type EntityType.Plane = true ∧
    Triangle.intersect sample_triangle resolved_ray = some ⟨Quat.one, ⟨0, 0, 1⟩⟩ ∧
    ((c8_device.wait_for_animation_frame c2_data 0).1).map (fun f => f.hit_test_results)
      = some [] := by
  refine ⟨rfl, rfl, ?_, rfl, ?_, ?_⟩
  · norm_num [c2_data, sample_data, local_source, HeadlessDeviceData.native_ray,
      RigidTransform3D.pre_transform, RigidTransform3D.post_transform,
      RigidTransform3D.compose, RigidTransform3D.identity, RigidTransform3D.cast_unit,
      Quat.mul, Quat.one, Quat.conj, Quat.rotate, Vec3.add, Vec3.zero, resolved_ray]
  · norm_num [Triangle.intersect, sample_triangle, resolved_ray, Vec3.sub, Vec3.cross,
      Vec3.dot, Vec3.add, Vec3.smul, Vec3.zero, Quat.one]
  · rw [wait_for_animation_frame_eq]
    simp [c2_data, sample_data, c8_device, hit_test_loop, HeadlessDeviceData.native_ray,
      bad_floor_source]

/-- C8 amended: for a committed hit-test source all of whose predecessors
in the committed order resolve and whose own ray resolves, each non-null
intersection of the resolved ray with a face of a region passing the type
filter yields exactly one result carrying that hit pose and the source id,
appearing in the frame after the predecessors' results; a source whose
filter matches no region type contributes no result. -/
theorem hit_test_results_per_resolvable_source
    (dev : HeadlessDevice) (data : HeadlessDeviceData) (t : Nat) (w : MockWorld)
    (pre post : List HitTestSource) (s : HitTestSource) (r : Ray Native)
    (hw : data.world = some w)
    (hl : dev.hit_tests.tests ++ dev.hit_tests.uncommitted = pre ++ s :: post)
    (hpre : ∀ p ∈ pre, data.native_ray p.ray p.space ≠ none)
    (hs : data.native_ray s.ray s.space = some r) :
    ∃ frame dev2 data2 rest,
      dev.wait_for_animation_frame data t = (some frame, dev2, data2) ∧
      frame.hit_test_results = hit_test_loop data w pre ++ source_hits w s r ++ rest ∧
      (source_hits w s r).length =
        ((w.regions.filter (fun region => s.types.is_type region.ty)).flatMap
          (fun region => region.faces)).countP (fun tri => (tri.intersect r).isSome) ∧
      (∀ res ∈ source_hits w s r, res.id = s.id ∧
        ∃ tri, tri ∈ (w.regions.filter (fun region => s.types.is_type region.ty)).flatMap
            (fun region => region.faces) ∧
          tri.intersect r = some res.space) ∧
      ((∀ region ∈ w.regions, s.types.is_type region.ty = false) → source_hits w s r = []) := by
  have hstep : hit_test_loop data w (s :: post)
      = source_hits w s r ++ hit_test_loop data w post := by
    simp [hit_test_loop, hs]
  refine ⟨_, _, _, hit_test_loop data w post,
    wait_for_animation_frame_eq dev data t, ?_, ?_, ?_, ?_⟩
  · simp only [hw]
    rw [hl, hit_test_loop_append data w pre (s :: post) hpre, hstep]
    simp [List.append_assoc]
  · rw [source_hits, length_filterMap_countP]
    refine List.countP_congr ?_
    intro tri _
    simp [Option.isSome_map']
  · intro res hres
    rw [source_hits] at hres
    rw [List.mem_filterMap] at hres
    obtain ⟨tri, htri, heq⟩ := hres
    rw [Option.map_eq_some'] at heq
    obtain ⟨pose, hpose, hmk⟩ := heq
    refine ⟨?_, tri, htri, ?_⟩
    · rw [← hmk]
    · rw [← hmk]
      exact hpose
  · intro hnone
    rw [source_hits]
    have hfil : w.regions.filter (fun region => s.types.is_type region.ty) = [] :=
      List.filter_eq_nil_iff.mpr (fun rg hrg => by simp [hnone rg hrg])
    rw [hfil]
    rfl

/-- C8 witness: one committed Local-space source against the sample world;
its contribution is exactly the non-null intersections with the matching
Plane region's faces. -/
theorem hit_test_per_resolvable_source_witness :
    ∃ frame dev2 data2 rest,
      c8w_device.wait_for_animation_frame c2_data 0 = (some frame, dev2, data2) ∧
      frame.hit_test_results =
        hit_test_loop c2_data sample_world []
        ++ source_hits sample_world local_source resolved_ray ++ rest ∧
      (source_hits sample_world local_source resolved_ray).length =
        ((sample_world.regions.filter
            (fun region => local_source.types.is_type region.ty)).flatMap
          (fun region => region.faces)).countP
            (fun tri => (tri.intersect resolved_ray).isSome) ∧
      (∀ res ∈ source_hits sample_world local_source resolved_ray,
        res.id = local_source.id ∧
        ∃ tri, tri ∈ (sample_world.regions.filter
              (fun region => local_source.types.is_type region.ty)).flatMap
            (fun region => region.faces) ∧
          tri.intersect resolved_ray = some res.space) ∧
      ((∀ region ∈ sample_world.regions,
          local_source.types.is_type region.ty = false) →
        source_hits sample_world local_source resolved_ray = []) :=
  hit_test_results_per_resolvable_source c8w_device c2_data 0 sample_world [] []
    local_source resolved_ray rfl rfl (by simp)
    (by norm_num [c2_data, sample_data, local_source, HeadlessDeviceData.native_ray,
      RigidTransform3D.pre_transform, RigidTransform3D.post_transform,
      RigidTransform3D.compose, RigidTransform3D.identity, RigidTransform3D.cast_unit,
      Quat.mul, Quat.one, Quat.conj, Quat.rotate, Vec3.add, Vec3.zero, resolved_ray])

/-- C9: for every View value and every pair of eye tags, cast_unit returns a
View whose transform and projection are numerically identical to the
original's; re-tagging changes only the phantom space parameter, never the
stored numbers. -/
theorem view_cast_unit_preserves_numbers
    (Eye NewEye : Type) (v : View Eye) :
    ((View.cast_unit v : View NewEye).transform.rotation = v.transform.rotation ∧
     (View.cast_unit v : View NewEye).transform.translation = v.transform.translation) ∧
    (View.cast_unit v : View NewEye).projection.to_untyped = v.projection.to_untyped := by
  refine ⟨⟨rfl, rfl⟩, ?_⟩
  rfl

end WebXR
